import Mathlib

/-!
Verification of the text-to-SQL prompting pipeline (gpt_request.py and
interactive_request.py) as a shallow embedding in Lean 4.

External effects are modelled as explicit oracles:
* the SQLite connection becomes a `Database` structure whose fields answer the
  exact catalog queries the code issues (sqlite_master listing, PRAGMA
  table_info, PRAGMA foreign_key_list, the bounded DISTINCT-value query, and
  the sidecar description lookup);
* the completion endpoint becomes a function from attempt index (or prompt)
  to an `Except` value, an exception being the `.error` case;
* SQL execution in the interactive loop becomes a function from the SQL text
  to an `Except` of the fetched row list;
* `input()` in the interactive loop becomes a step-indexed `Option String`
  (`some s` models the user answering "y" and typing `s`, `none` models any
  other answer, which makes the code fall back to `auto_feedback`).

Python strings are modelled as Lean `String`; the string operations the code
uses (`strip`, `upper`, `lower`, `startswith`, substring tests, `join`,
`split`, `replace`, comparison) are given explicit code-point-level
definitions below that agree with Python's on the ASCII text involved.
-/

/-! ## String helpers shared by the embedding

The Python string operations the scripts use (`strip`, `upper`, `lower`,
`startswith`, `in`, `find`, `replace`, `join`, `split`, `rstrip`,
`os.path.basename`) are defined here by structural recursion on the
code-point list of the string, so that every definition evaluates inside the
kernel on concrete inputs. -/

/-- Python `s.strip()`: drop leading and trailing whitespace. -/
def py_strip (s : String) : String :=
  String.mk (((s.toList.dropWhile Char.isWhitespace).reverse.dropWhile
    Char.isWhitespace).reverse)

/-- Python `s.upper()` (the text involved is ASCII, where Python and
`Char.toUpper` agree). -/
def py_upper (s : String) : String :=
  String.mk (s.toList.map Char.toUpper)

/-- Python `s.lower()` (ASCII text). -/
def py_lower (s : String) : String :=
  String.mk (s.toList.map Char.toLower)

/-- Python `s.startswith(pat)`. -/
def py_startswith (s pat : String) : Bool :=
  pat.toList.isPrefixOf s.toList

/-- Python `sep.join(xs)`. -/
def py_join (sep : String) : List String → String
  | [] => ""
  | [x] => x
  | x :: y :: xs => x ++ sep ++ py_join sep (y :: xs)

/-- Replacement loop for Python `s.replace(pat, repl)`: leftmost,
non-overlapping occurrences; `fuel` bounds the number of steps and is
instantiated with the length of the scanned list. -/
def py_replace_go (pat repl : List Char) : Nat → List Char → List Char
  | 0, hay => hay
  | Nat.succ fuel, hay =>
    match hay with
    | [] => []
    | c :: rest =>
      if pat ≠ [] ∧ pat.isPrefixOf hay then
        repl ++ py_replace_go pat repl fuel (hay.drop pat.length)
      else c :: py_replace_go pat repl fuel rest

/-- Python `s.replace(pat, repl)` for a non-empty pattern (the only use here
replaces `".sqlite"`). -/
def py_replace (s pat repl : String) : String :=
  String.mk (py_replace_go pat.toList repl.toList s.toList.length s.toList)

/-- Whitespace tokenizer behind Python `s.split()` (no separator argument):
maximal non-whitespace runs, leading/trailing/repeated whitespace dropped.
`cur` accumulates the current token in reverse. -/
def py_split_ws_go (cur : List Char) : List Char → List (List Char)
  | [] => if cur = [] then [] else [cur.reverse]
  | c :: rest =>
    if c.isWhitespace then
      if cur = [] then py_split_ws_go [] rest
      else cur.reverse :: py_split_ws_go [] rest
    else py_split_ws_go (c :: cur) rest

/-- Python `s.split()`. -/
def py_split_ws (s : String) : List String :=
  (py_split_ws_go [] s.toList).map String.mk

/-- Index of the first occurrence of `pat` inside `hay`, counting code points
from `i`; models Python `str.find` (which returns -1, modelled as `none`). -/
def find_sub_aux (pat : List Char) (hay : List Char) (i : Nat) : Option Nat :=
  if pat.isPrefixOf hay then some i
  else
    match hay with
    | [] => none
    | _ :: rest => find_sub_aux pat rest (i + 1)

/-- Python `hay.find(pat)` on code-point lists (`none` models -1). -/
def find_sub (hay pat : String) : Option Nat :=
  find_sub_aux pat.toList hay.toList 0

/-- Membership of `pat` as a contiguous substring of `hay`. -/
def char_list_has_sub (pat : List Char) : List Char → Bool
  | [] => pat.isEmpty
  | c :: rest => pat.isPrefixOf (c :: rest) || char_list_has_sub pat rest

/-- Python `pat in hay` for strings. -/
def str_has_sub (hay pat : String) : Bool :=
  char_list_has_sub pat.toList hay.toList

/-- Python `s.rstrip(", ")`: drop trailing commas and spaces. -/
def rstrip_comma_space (s : String) : String :=
  String.mk ((s.toList.reverse.dropWhile (fun c => c == ',' || c == ' ')).reverse)

/-- Python `" ".join(s.split())`: collapse whitespace runs to single spaces and
drop leading/trailing whitespace. -/
def collapse_ws (s : String) : String :=
  py_join " " (py_split_ws s)

/-- Lexicographic comparison of code-point lists, the order Python `<` uses
on `str`. -/
def char_list_lt : List Char → List Char → Bool
  | [], [] => false
  | [], _ :: _ => true
  | _ :: _, [] => false
  | a :: as, b :: bs =>
    if a < b then true
    else if b < a then false
    else char_list_lt as bs

/-- Python `s < t` on strings. -/
def py_str_lt (s t : String) : Bool :=
  char_list_lt s.toList t.toList

/-- Python `s <= t` on strings. -/
def py_str_le (s t : String) : Bool :=
  py_str_lt s t || s == t

/-- Insert a string into a list, keeping ascending order. -/
def insert_le (s : String) : List String → List String
  | [] => [s]
  | t :: ts => if py_str_le s t then s :: t :: ts else t :: insert_le s ts

/-- Python `sorted(xs)` for lists of strings (insertion sort; stability is
irrelevant because equal strings are identical). -/
def sort_strings (xs : List String) : List String :=
  xs.foldr insert_le []

/-- Insert a string into a strictly ascending list, skipping duplicates. -/
def insert_uniq (s : String) : List String → List String
  | [] => [s]
  | t :: ts =>
    if s = t then t :: ts
    else if py_str_lt s t then s :: t :: ts
    else t :: insert_uniq s ts

/-- Python `sorted(set(xs))`: the strictly ascending list of the distinct
elements of `xs`. -/
def sorted_set (xs : List String) : List String :=
  xs.foldr insert_uniq []

/-- Python `os.path.basename` for POSIX paths: everything after the final
slash. -/
def basename (p : String) : String :=
  String.mk ((p.toList.reverse.takeWhile (fun c => c ≠ '/')).reverse)

/-! ## gpt_request.py: completion client and its retry policy

`connect_gpt` is decorated with
`backoff.on_exception(backoff.constant, (APIError, RateLimitError,
APITimeoutError, Exception), giveup=quota_giveup, interval=15, max_tries=3)`.
The decorator's semantics: call the function; on an exception `e`, if
`quota_giveup e` holds or 3 calls have been made, re-raise `e`, otherwise
sleep the constant 15-second interval (timing, no data effect) and call
again.  The endpoint is the oracle `attempts : Nat → Except GPTError String`
giving the outcome of the i-th call. -/

/-- The exception classes the decorator names; `other_err` stands for any
further `Exception` (all of them are caught, since the tuple ends in
`Exception`). -/
inductive GPTError
  | timeout_err
  | api_err
  | rate_limit_err
  | other_err (msg : String)
deriving DecidableEq, Repr

/-- `quota_giveup(e) = isinstance(e, openai.RateLimitError)`. -/
def quota_giveup (e : GPTError) : Bool :=
  match e with
  | .rate_limit_err => true
  | _ => false

/-- The retry loop of `backoff.on_exception` with `giveup=quota_giveup`;
`tries_left` counts the calls still allowed including the current one. -/
def backoff_retry (attempts : Nat → Except GPTError String) :
    Nat → Nat → Except GPTError String
  | 0, _ => .error (.other_err "unreachable: max_tries is positive")
  | Nat.succ tries_left, i =>
    match attempts i with
    | .ok text => .ok text
    | .error e =>
      if quota_giveup e then .error e
      else if tries_left = 0 then .error e
      else backoff_retry attempts tries_left (i + 1)

/-- `connect_gpt` as seen by callers: the decorated call with `max_tries=3`. -/
def connect_gpt (attempts : Nat → Except GPTError String) : Except GPTError String :=
  backoff_retry attempts 3 0

/-! ## gpt_request.py: batch runner normalization (collect_response_from_gpt) -/

/-- Lines 274-275 of gpt_request.py:
`sql = 'SELECT' + sql_text if not sql_text.strip().upper().startswith('SELECT') else sql_text`
followed by `sql = sql.strip() + f"\t----- bird -----\t{db_id}"`. -/
def normalize_response (sql_text db_id : String) : String :=
  let sql :=
    if py_startswith (py_upper (py_strip sql_text)) "SELECT" = false
    then "SELECT" ++ sql_text else sql_text
  py_strip sql ++ "\t----- bird -----\t" ++ db_id

/-- `db_id = os.path.basename(db_path_list[i]).replace('.sqlite', '')`. -/
def db_id_of_path (p : String) : String :=
  py_replace (basename p) ".sqlite" ""

/-- The per-item loop body of `collect_response_from_gpt`.  Prompt composition
and the endpoint call are folded into the oracle `gpt` (outcome of the guarded
`connect_gpt(...)` call for the i-th item: `.error e` models a raised
exception with `str(exception) = e`, so `except Exception as e` produces the
text `"error:" ++ e`); the audit-log writes are output-only side effects.
`i` is the `enumerate` index; one result string is appended per question. -/
def collect_go (gpt : Nat → Except String String) (db_path_list : List String) :
    Nat → List String → List String
  | _, [] => []
  | i, _question :: rest =>
    let db_id := db_id_of_path (db_path_list.getD i "")
    let sql_text :=
      match gpt i with
      | .ok t => t
      | .error e => "error:" ++ e
    normalize_response sql_text db_id :: collect_go gpt db_path_list (i + 1) rest

/-- `collect_response_from_gpt`: the ordered response list it returns. -/
def collect_response_from_gpt (gpt : Nat → Except String String)
    (db_path_list question_list : List String) : List String :=
  collect_go gpt db_path_list 0 question_list

/-! ## gpt_request.py: schema introspection and serialization

The SQLite connection is modelled by a `Database` whose fields answer exactly
the queries the code sends.  A `PRAGMA foreign_key_list` row
`(id, seq, table, from, to, on_update, on_delete, match)` is modelled as a
`List String` of its stringified fields, so the guard `len(row) >= 5` and the
positional reads `row[2] / row[3] / row[4]` are literal. -/

/-- One `PRAGMA table_info` row `(cid, name, type, notnull, dflt_value, pk)`.
`declared_type = ""` models both SQL NULL and an empty declared type (both are
falsy in Python, which is what `col[2] or "UNKNOWN"` tests). -/
structure ColumnInfo where
  cid : Nat
  name : String
  declared_type : String
  notnull : Nat
  dflt_value : Option String
  pk : Nat
deriving DecidableEq, Repr

/-- The catalog/content oracle standing for one sqlite3 connection:
`table_names` is the `sqlite_master` query result (user tables only, the query
excludes `sqlite_%`), `table_info` and `fk_list` are the two pragmas keyed by
table name, `col_values` is the full list of distinct non-null stringified
values of a column in scan order (the `SELECT DISTINCT ... LIMIT ?` query
returns its prefix), and `descriptions` is the mapping
`load_column_descriptions` builds from the sidecar CSV files, flattened to
lower-cased table and column names, with `""` for absent entries (the Python
code defaults both `dict.get` levels to an empty value). -/
structure Database where
  table_names : List String
  table_info : String → List ColumnInfo
  fk_list : String → List (List String)
  col_values : String → String → List String
  descriptions : String → String → String

/-- `get_foreign_keys`: fold the pragma rows into a dict from originating
column to `(referenced_table, referenced_column)`; a later row with the same
`from` column overwrites an earlier one, exactly like the Python
`fk_map[from_col] = (ref_table, ref_column)` assignment. -/
def get_foreign_keys (fk_info : List (List String)) : String → Option (String × String) :=
  fk_info.foldl
    (fun fk_map row =>
      if 5 ≤ row.length then
        fun col =>
          if col = row.getD 3 "" then some (row.getD 2 "", row.getD 4 "") else fk_map col
      else fk_map)
    (fun _ => none)

/-- Spec-side definition for claim C3 (refinement comparison only): the
`(referenced_table, referenced_column)` pair of the first declared foreign key
for `col`, reading the rows in constraint declaration order. -/
def first_declared_target : List (List String) → String → Option (String × String)
  | [], _ => none
  | row :: rest, col =>
    if 5 ≤ row.length ∧ row.getD 3 "" = col
    then some (row.getD 2 "", row.getD 4 "")
    else first_declared_target rest col

/-- `fetch_column_examples`: the bounded DISTINCT query returns the first
`limit` distinct non-null values; the code's `if value is None: continue`
filter is vacuous because of the `WHERE {col} IS NOT NULL` clause, and `str`
conversion is folded into the oracle's stringified values. -/
def fetch_column_examples (db : Database) (table_name column_name : String)
    (limit : Nat) : List String :=
  (db.col_values table_name column_name).take limit

/-- The `if description and fk_info:` truncation in `build_table_prompt`:
cut the description at the first occurrence of "maps to" (case-insensitive)
and strip trailing `", "` characters. -/
def truncate_maps_to (description : String) : String :=
  match find_sub (py_lower description) "maps to" with
  | none => description
  | some maps_idx => rstrip_comma_space (String.mk (description.toList.take maps_idx))

/-- The foreign-key relation string `f"{table_name}.{col_name} = {fk_info[0]}.{fk_info[1]}"`
appended to `fk_relations` for a column that has a foreign key. -/
def column_fk_relation (table_name : String) (fk_map : String → Option (String × String))
    (col : ColumnInfo) : List String :=
  match fk_map col.name with
  | some rc => [table_name ++ "." ++ col.name ++ " = " ++ rc.1 ++ "." ++ rc.2]
  | none => []

/-- One iteration of the column loop in `build_table_prompt`: the rendered
column line (with comma continuation for all but the last column) paired with
the foreign-key relation strings this column appends. -/
def column_line (db : Database) (sample_limit : Nat) (table_name : String)
    (fk_map : String → Option (String × String)) (total idx : Nat)
    (col : ColumnInfo) : String × List String :=
  let col_name := col.name
  let col_type := if col.declared_type = "" then "UNKNOWN" else col.declared_type
  let is_pk := col.pk ≠ 0
  let description0 := py_strip (db.descriptions (py_lower table_name) (py_lower col_name))
  let description1 := if description0 ≠ "" then collapse_ws description0 else description0
  let fk_info := fk_map col_name
  let parts0 := [col_name ++ ": " ++ col_type]
  let parts1 := if is_pk then parts0 ++ ["Primary Key"] else parts0
  let description2 :=
    if description1 ≠ "" ∧ fk_info.isSome then truncate_maps_to description1 else description1
  let parts2 := if description2 ≠ "" then parts1 ++ [description2] else parts1
  let parts_text := py_join ", " parts2
  let examples := fetch_column_examples db table_name col_name sample_limit
  let examples_str :=
    if examples ≠ [] then py_join ", " (examples.take sample_limit) else ""
  let line0 := "  (" ++ parts_text
  let line1 :=
    match fk_info with
    | some rc => line0 ++ "\n   Maps to " ++ rc.1 ++ "(" ++ rc.2 ++ ")"
    | none => line0
  let line2 := if examples_str ≠ "" then line1 ++ ", Examples: [" ++ examples_str ++ "]" else line1
  let line3 := line2 ++ ")"
  let line4 := if idx < total - 1 then line3 ++ "," else line3
  (line4, column_fk_relation table_name fk_map col)

/-- `build_table_prompt`: returns the table block and the foreign-key relation
strings appended while rendering it (the Python version mutates the shared
`fk_relations` list; the appends of one call are returned here instead).  An
empty `table_info` answer — no columns or a failed pragma — yields `("", [])`
and the caller drops the table. -/
def build_table_prompt (db : Database) (sample_limit : Nat) (table_name : String) :
    String × List String :=
  let columns_info := db.table_info table_name
  if columns_info = [] then ("", [])
  else
    let fk_map := get_foreign_keys (db.fk_list table_name)
    let total := columns_info.length
    let cells := columns_info.enum.map
      (fun p => column_line db sample_limit table_name fk_map total p.1 p.2)
    let column_lines := cells.map (fun c => c.1)
    let fk_relations := (cells.map (fun c => c.2)).flatten
    let table_block :=
      "# Table: " ++ table_name ++ "\n[\n" ++ py_join "\n\n" column_lines ++ "\n]"
    (table_block, fk_relations)

/-- The per-table loop of `generate_schema_prompt`: accumulate the non-empty
table blocks (`schema_sections`) and the foreign-key relation strings
(`fk_relations`) over the name-sorted table list. -/
def schema_accumulate (db : Database) (sample_limit : Nat) : List String × List String :=
  (sort_strings db.table_names).foldl
    (fun acc table_name =>
      let bp := build_table_prompt db sample_limit table_name
      (if bp.1 ≠ "" then acc.1 ++ [bp.1] else acc.1, acc.2 ++ bp.2))
    ([], [])

/-- `generate_schema_prompt`: the table blocks, then — only if any foreign-key
relation was recorded — one final section with the sorted deduplicated
relations, all joined by blank lines. -/
def generate_schema_prompt (db : Database) (sample_limit : Nat) : String :=
  let acc := schema_accumulate db sample_limit
  let sections :=
    if acc.2 ≠ [] then
      acc.1 ++ ["【Foreign keys】\n" ++ py_join "\n" (sorted_set acc.2)]
    else acc.1
  py_join "\n\n" sections

/-! ## gpt_request.py: prompt composition -/

/-- `generate_comment_prompt`.  Python tests `if knowledge:`, so both `None`
and an empty knowledge string select the no-knowledge instruction. -/
def generate_comment_prompt (question : String) (knowledge : Option String) : String :=
  let pattern_no_kg :=
    "-- Using valid SQLite, answer the following questions for the tables provided above."
  let pattern_kg :=
    "-- Using valid SQLite and understanding External Knowledge, answer the following questions for the tables provided above. Return only the SQL query. Do not provide any explanation."
  let question_prompt := "-- " ++ question
  match knowledge with
  | some k =>
    if k = "" then pattern_no_kg ++ "\n" ++ question_prompt
    else "-- External Knowledge: " ++ k ++ "\n" ++ pattern_kg ++ "\n" ++ question_prompt
  | none => pattern_no_kg ++ "\n" ++ question_prompt

/-- `generate_combined_prompts_one`: schema block, blank line, instruction
block, and the trailing `SELECT ` primer. -/
def generate_combined_prompts_one (db : Database) (question : String)
    (knowledge : Option String) : String :=
  generate_schema_prompt db 3 ++ "\n\n" ++ generate_comment_prompt question knowledge
    ++ "\nSELECT "

/-! ## interactive_request.py: execution comparison

Rows fetched by `cursor.fetchall()` are tuples of SQLite values; they are
modelled as `List Int` (a representative value type with the decidable
equality Python's `set` membership uses).  SQL execution is the oracle
`run_sql : String → Except String (List Row)`; `.error e` models an exception
with `str(exception) = e` raised by `execute`/`fetchall`. -/

/-- A fetched result row. -/
abbrev Row := List Int

/-- Python `set(a) == set(b)`: two collections are equal as sets exactly when
each element of one occurs in the other (duplicates and order ignored). -/
def py_set_eq (a b : List Row) : Bool :=
  a.all (fun x => b.contains x) && b.all (fun x => a.contains x)

/-- The outcome of `execute_and_compare` plus connection accounting:
`conn_opened` counts `sqlite3.connect` calls and `conn_closed` counts
`conn.close()` calls performed before the `return` that produced this
outcome. -/
structure ExecCompare where
  same : Bool
  message : String
  conn_opened : Nat
  conn_closed : Nat
deriving Repr, DecidableEq

/-- `execute_and_compare(predicted_sql, gold_sql, db_path)`: run both
statements, treat either exception as a non-match carrying the exception
message, otherwise compare the fetched row lists as Python sets
(`set(pred_res) == set(gold_res)`, i.e. equality of the underlying finite
sets of rows).  Every return path closes the connection first. -/
def execute_and_compare (run_sql : String → Except String (List Row))
    (predicted_sql gold_sql : String) : ExecCompare :=
  match run_sql predicted_sql with
  | .error e =>
    { same := false, message := "Predicted SQL Execution Error: " ++ e
      conn_opened := 1, conn_closed := 1 }
  | .ok pred_res =>
    match run_sql gold_sql with
    | .error e =>
      { same := false, message := "Gold SQL Execution Error: " ++ e
        conn_opened := 1, conn_closed := 1 }
    | .ok gold_res =>
      if py_set_eq pred_res gold_res then
        { same := true, message := "Execution results match ", conn_opened := 1, conn_closed := 1 }
      else
        { same := false, message := "Execution results differ ", conn_opened := 1, conn_closed := 1 }

/-! ## interactive_request.py: feedback and prompts -/

/-- `auto_feedback`: rule-based feedback, three keyword checks in priority
order, then a generic fallback. -/
def auto_feedback (pred_sql gold_sql : String) : String :=
  if str_has_sub (py_lower pred_sql) "where" = false ∧ str_has_sub (py_lower gold_sql) "where" then
    "You forgot the WHERE condition."
  else if str_has_sub (py_lower gold_sql) "group by" ∧ str_has_sub (py_lower pred_sql) "group by" = false then
    "You missed the GROUP BY clause."
  else if str_has_sub (py_lower gold_sql) "join" ∧ str_has_sub (py_lower pred_sql) "join" = false then
    "You should include a JOIN operation."
  else
    "The SQL result is incorrect. Please refine conditions or joins."

/-- `build_interactive_prompt`.  Python tests `if not pred_sql:`, so the
first-round prompt is used exactly when the previous prediction is the empty
string. -/
def build_interactive_prompt (schema_prompt question : String)
    (feedback_history : List String) (pred_sql : String) : String :=
  let base_instruction :=
    generate_comment_prompt question none ++ "\n-- Return only the SQL query."
  if pred_sql = "" then schema_prompt ++ "\n\n" ++ base_instruction
  else
    let feedback_str :=
      if feedback_history ≠ [] then
        py_join "\n" (feedback_history.map (fun fb => "- " ++ fb))
      else "- (none)"
    schema_prompt ++ "\n\n-- Previous SQL (incorrect):\n" ++ pred_sql
      ++ "\n\n-- User feedback:\n" ++ feedback_str
      ++ "\n\n-- Refine the SQL query accordingly.\n\n" ++ base_instruction ++ "\n"

/-! ## interactive_request.py: the refinement loop

Oracles: `llm step prompt` is the stripped, code-fence-free SQL text obtained
from `call_llm` plus the `re.sub` cleanup at iteration `step` (the endpoint
call and the regex strip are external/textual and folded into one oracle —
no claim depends on the fence removal itself); `manual step = some s` models
the user answering "y" to the feedback prompt and entering `s`, `none` models
any other answer (fall back to `auto_feedback`); `run_sql` is the SQL
execution oracle of `execute_and_compare`. -/

/-- The Python local variables live across iterations: `pred_sql` (initially
`""`), `message` (unassigned before the first iteration, hence `Option`),
`feedback_history`, the iteration counter `step`, and whether the loop left
via the `break` on a match. -/
structure LoopState where
  pred_sql : String
  message : Option String
  feedback_history : List String
  steps : Nat
  matched : Bool
deriving Repr, DecidableEq

/-- The initial state on entry to the `for step in range(max_iter)` loop. -/
def interactive_init : LoopState :=
  { pred_sql := "", message := none, feedback_history := [], steps := 0, matched := false }

/-- The `for step in range(max_iter)` loop of `interactive_loop`: build the
prompt (passing `""` instead of the previous prediction when `step` is 0),
query the model, execute and compare, `break` on a match, otherwise collect
feedback (manual or automatic) and append it to the history.  `fuel` is the
number of remaining iterations, so the loop is entered with
`fuel = max_iter` and `st.steps = 0`. -/
def interactive_go (run_sql : String → Except String (List Row))
    (llm : Nat → String → String) (manual : Nat → Option String)
    (schema_prompt question gold_sql : String) :
    Nat → LoopState → LoopState
  | 0, st => st
  | Nat.succ fuel, st =>
    let prompt := build_interactive_prompt schema_prompt question st.feedback_history
      (if st.steps = 0 then "" else st.pred_sql)
    let pred_sql := llm st.steps prompt
    let r := execute_and_compare run_sql pred_sql gold_sql
    if r.same then
      { pred_sql := pred_sql, message := some r.message
        feedback_history := st.feedback_history, steps := st.steps + 1, matched := true }
    else
      let feedback :=
        match manual st.steps with
        | some s => s
        | none => auto_feedback pred_sql gold_sql
      interactive_go run_sql llm manual schema_prompt question gold_sql fuel
        { pred_sql := pred_sql, message := some r.message
          feedback_history := st.feedback_history ++ [feedback]
          steps := st.steps + 1, matched := false }

/-- The loop state after `interactive_loop` finishes iterating: the schema
prompt is computed once from the database (with the default `sample_limit`
of 3) before the loop starts. -/
def interactive_loop_state (db : Database) (run_sql : String → Except String (List Row))
    (llm : Nat → String → String) (manual : Nat → Option String)
    (question gold_sql : String) (max_iter : Nat) : LoopState :=
  interactive_go run_sql llm manual (generate_schema_prompt db 3) question gold_sql
    max_iter interactive_init

/-- The dict `interactive_loop` returns. -/
structure LoopRecord where
  question : String
  pred_sql : String
  gold_sql : String
  execution_result : String
  feedback_history : List String
deriving Repr, DecidableEq

/-- `interactive_loop`: run the bounded loop, then build the result record.
The record reads the local variable `message`; if the loop body never ran,
`message` was never assigned and Python raises
`NameError: name 'message' is not defined`, modelled as the `.error` case. -/
def interactive_loop (db : Database) (run_sql : String → Except String (List Row))
    (llm : Nat → String → String) (manual : Nat → Option String)
    (question gold_sql : String) (max_iter : Nat) : Except String LoopRecord :=
  let st := interactive_loop_state db run_sql llm manual question gold_sql max_iter
  match st.message with
  | none => .error "NameError: name message is not defined"
  | some m =>
    .ok { question := question, pred_sql := st.pred_sql, gold_sql := gold_sql
          execution_result := m, feedback_history := st.feedback_history }

/-! ## Concrete instances used to evaluate the theorems

Small closed databases and oracles on which the definitions are evaluated by
the kernel. -/

/-- A database with no user tables at all. -/
def empty_db : Database :=
  { table_names := []
    table_info := fun _ => []
    fk_list := fun _ => []
    col_values := fun _ _ => []
    descriptions := fun _ _ => "" }

/-- A one-table database whose single column `a` carries a foreign key to
`p(id)`; the `fk_list` answer is a real `PRAGMA foreign_key_list` row shape. -/
def fk_db : Database :=
  { table_names := ["t"]
    table_info := fun n =>
      if n = "t" then
        [{ cid := 0, name := "a", declared_type := "INTEGER", notnull := 0
           dflt_value := none, pk := 1 }]
      else []
    fk_list := fun n =>
      if n = "t" then [["0", "0", "p", "a", "id", "NO ACTION", "NO ACTION", "NONE"]]
      else []
    col_values := fun _ _ => []
    descriptions := fun _ _ => "" }

/-- An execution oracle on which every statement raises. -/
def run_sql_fail : String → Except String (List Row) := fun _ => .error "bam"

/-- An execution oracle on which every statement returns the empty result. -/
def run_sql_ok_empty : String → Except String (List Row) := fun _ => .ok []

/-- An execution oracle realizing the two result-set example pairs of the
set-comparison claim. -/
def run_sql_examples : String → Except String (List Row) := fun s =>
  if s = "P1" then .ok [[1, 2], [2, 1]]
  else if s = "G1" then .ok [[2, 1], [1, 2]]
  else if s = "P2" then .ok [[1, 1], [1, 1]]
  else if s = "G2" then .ok [[1, 1]]
  else .error "no such statement"

/-- A model oracle answering every prompt with the same SQL text. -/
def llm_fixed : Nat → String → String := fun _ _ => "SELECT 1"

/-- A feedback oracle for a user who never provides manual feedback. -/
def manual_none : Nat → Option String := fun _ => none

/-- A per-item completion oracle whose first item raises. -/
def gpt_fail_first : Nat → Except String String := fun i =>
  if i = 0 then .error "boom" else .ok " * FROM t"

/-- Endpoint attempts: the first call raises a rate-limit error, every later
call would succeed. -/
def att_quota : Nat → Except GPTError String := fun i =>
  if i = 0 then .error .rate_limit_err else .ok "SELECT 1"

/-- Endpoint attempts: the first call times out, every later call succeeds. -/
def att_transient : Nat → Except GPTError String := fun i =>
  if i = 0 then .error .timeout_err else .ok "ok"

/-- Endpoint attempts: the first three calls raise generic API errors, the
fourth would succeed (it is never made: the ceiling is three tries). -/
def att_exhaust : Nat → Except GPTError String := fun i =>
  if i ≤ 2 then .error .api_err else .ok "late"

/-! ## Helper lemmas -/

/-- `collect_go` yields one output line per question. -/
theorem collect_go_length (gpt : Nat → Except String String) (dbs : List String) :
    ∀ qs : List String, ∀ i, (collect_go gpt dbs i qs).length = qs.length := by
  intro qs
  induction qs with
  | nil => intro i; rfl
  | cons q rest ih => intro i; simp [collect_go, ih]

/-- The k-th output line of `collect_go` started at index `i` is the
normalized outcome of item `i + k`. -/
theorem collect_go_get (gpt : Nat → Except String String) (dbs : List String) :
    ∀ qs : List String, ∀ i k, k < qs.length →
      (collect_go gpt dbs i qs).get? k =
        some (normalize_response
          (match gpt (i + k) with
           | .ok t => t
           | .error e => "error:" ++ e)
          (db_id_of_path (dbs.getD (i + k) ""))) := by
  intro qs
  induction qs with
  | nil => intro i k hk; simp at hk
  | cons q rest ih =>
    intro i k hk
    cases k with
    | zero => simp [collect_go]
    | succ k =>
      have hk2 : k < rest.length := by simpa using hk
      have := ih (i + 1) k hk2
      simpa [collect_go, Nat.add_assoc, Nat.add_comm 1 k] using this

/-- Python set equality of row lists is equality of the corresponding finite
sets of rows. -/
theorem py_set_eq_iff (a b : List Row) :
    py_set_eq a b = true ↔ a.toFinset = b.toFinset := by
  simp only [py_set_eq, Bool.and_eq_true, List.all_eq_true, List.elem_iff,
    Finset.ext_iff, List.mem_toFinset]
  constructor
  · rintro ⟨h1, h2⟩ x
    exact ⟨fun hx => h1 x hx, fun hx => h2 x hx⟩
  · intro h
    exact ⟨fun x hx => (h x).mp hx, fun x hx => (h x).mpr hx⟩

/-! ## C1: batch-runner normalization -/

/-- C1 counterexample: for raw completion text `"id FROM t"` and database id
`"d"` the code produces `"SELECTid FROM t\t----- bird -----\td"` — the
`SELECT` token is prepended by plain string concatenation with no separating
space — and not the claimed `"SELECT id FROM t\t----- bird -----\td"`. -/
theorem c1_counterexample :
    normalize_response "id FROM t" "d" = "SELECTid FROM t\t----- bird -----\td" ∧
    normalize_response "id FROM t" "d" ≠ "SELECT id FROM t\t----- bird -----\td" := by
  decide

/-- C1 (amended): if the stripped raw completion text does not begin with
`SELECT` (case-insensitive), the literal token `SELECT` is prepended with no
separating space, and the stripped result plus the suffix tag is returned;
text already beginning with `SELECT` is kept, stripped, and suffix-tagged.
So raw `"id FROM t"` with db id `d` yields `"SELECTid FROM t\t----- bird -----\td"`,
while `"SELECT * FROM t"` is unchanged except for the suffix tag. -/
theorem c1_normalization (raw db_id : String) :
    (py_startswith (py_upper (py_strip raw)) "SELECT" = false →
      normalize_response raw db_id =
        py_strip ("SELECT" ++ raw) ++ "\t----- bird -----\t" ++ db_id) ∧
    (py_startswith (py_upper (py_strip raw)) "SELECT" = true →
      normalize_response raw db_id = py_strip raw ++ "\t----- bird -----\t" ++ db_id) := by
  constructor <;> intro h <;> simp [normalize_response, h]

/-- C1 witness: the amended normalization evaluated on the claim's two
concrete inputs. -/
theorem c1_witness :
    (py_startswith (py_upper (py_strip "id FROM t")) "SELECT" = false ∧
      normalize_response "id FROM t" "d" =
        py_strip ("SELECT" ++ "id FROM t") ++ "\t----- bird -----\t" ++ "d") ∧
    (py_startswith (py_upper (py_strip "SELECT * FROM t")) "SELECT" = true ∧
      normalize_response "SELECT * FROM t" "d" =
        py_strip "SELECT * FROM t" ++ "\t----- bird -----\t" ++ "d") :=
  ⟨⟨by decide, (c1_normalization "id FROM t" "d").1 (by decide)⟩,
   ⟨by decide, (c1_normalization "SELECT * FROM t" "d").2 (by decide)⟩⟩

/-! ## C5: batch runner survives per-item failures -/

/-- C5 counterexample: when the completion call of the first of two items
raises `boom`, the recorded result of that item is
`"SELECTerror:boom\t----- bird -----\tdb1"` — the `error:` placeholder also
flows through the `SELECT`-prepending normalization — not the claimed
`"error:boom\t----- bird -----\tdb1"`; the second item is still processed. -/
theorem c5_counterexample :
    collect_response_from_gpt gpt_fail_first ["/x/db1.sqlite", "/x/db2.sqlite"] ["q1", "q2"]
      = ["SELECTerror:boom\t----- bird -----\tdb1", "SELECT * FROM t\t----- bird -----\tdb2"] ∧
    (collect_response_from_gpt gpt_fail_first ["/x/db1.sqlite", "/x/db2.sqlite"] ["q1", "q2"]).get? 0
      ≠ some "error:boom\t----- bird -----\tdb1" := by
  decide

/-- C5 (amended): for every batch item whose completion call raises an
exception, the batch runner substitutes the placeholder `error:<exception
text>` as the raw completion text of that item, which then flows through the
standard normalization — the placeholder never begins with `SELECT`, so the
recorded result is `SELECTerror:<exception text>` plus the suffix tag — and
the batch continues: the output has exactly one line per question. -/
theorem c5_error_placeholder (gpt : Nat → Except String String)
    (dbs qs : List String) (i : Nat) (e : String)
    (hi : i < qs.length) (he : gpt i = .error e) :
    (collect_response_from_gpt gpt dbs qs).length = qs.length ∧
    (collect_response_from_gpt gpt dbs qs).get? i =
      some (normalize_response ("error:" ++ e) (db_id_of_path (dbs.getD i ""))) := by
  refine ⟨collect_go_length gpt dbs qs 0, ?_⟩
  have h := collect_go_get gpt dbs qs 0 i hi
  simpa [collect_response_from_gpt, he] using h

/-- C5 witness: the amended statement evaluated on a concrete two-item batch
whose first item raises. -/
theorem c5_witness :
    (collect_response_from_gpt gpt_fail_first ["/x/db1.sqlite", "/x/db2.sqlite"] ["q1", "q2"]).length = 2 ∧
    (collect_response_from_gpt gpt_fail_first ["/x/db1.sqlite", "/x/db2.sqlite"] ["q1", "q2"]).get? 0 =
      some (normalize_response ("error:" ++ "boom")
        (db_id_of_path ((["/x/db1.sqlite", "/x/db2.sqlite"] : List String).getD 0 ""))) := by
  have h := c5_error_placeholder gpt_fail_first ["/x/db1.sqlite", "/x/db2.sqlite"] ["q1", "q2"]
    0 "boom" (by decide) rfl
  exact ⟨h.1, h.2⟩

/-! ## C4: completion-client retry policy -/

/-- C4: the retry policy of `connect_gpt`.  (1) The give-up classification is
exactly "the exception is a rate-limit error" — so nothing but a rate-limit
condition short-circuits the retries, and every rate-limit error counts as
quota exhaustion.  (2) A quota-classified failure on the first call
propagates immediately, with no second call consulted.  (3)/(4) Timeouts and
generic API errors (any non-give-up exception) are retried: a success on the
second or third call is returned.  (5) Three non-give-up failures exhaust the
attempt ceiling and the final (third) exception propagates to the caller —
even when a fourth call would have succeeded, it is never made. -/
theorem c4_retry_policy :
    (∀ e : GPTError, quota_giveup e = true ↔ e = GPTError.rate_limit_err) ∧
    (∀ attempts : Nat → Except GPTError String, ∀ e,
      attempts 0 = .error e → quota_giveup e = true →
      connect_gpt attempts = .error e) ∧
    (∀ attempts : Nat → Except GPTError String, ∀ e t,
      attempts 0 = .error e → quota_giveup e = false → attempts 1 = .ok t →
      connect_gpt attempts = .ok t) ∧
    (∀ attempts : Nat → Except GPTError String, ∀ e0 e1 t,
      attempts 0 = .error e0 → quota_giveup e0 = false →
      attempts 1 = .error e1 → quota_giveup e1 = false → attempts 2 = .ok t →
      connect_gpt attempts = .ok t) ∧
    (∀ attempts : Nat → Except GPTError String, ∀ e0 e1 e2,
      attempts 0 = .error e0 → quota_giveup e0 = false →
      attempts 1 = .error e1 → quota_giveup e1 = false →
      attempts 2 = .error e2 → quota_giveup e2 = false →
      connect_gpt attempts = .error e2) := by
  refine ⟨?_, ?_, ?_, ?_, ?_⟩
  · intro e; cases e <;> simp [quota_giveup]
  · intro attempts e h0 hq
    simp [connect_gpt, backoff_retry, h0, hq]
  · intro attempts e t h0 hq h1
    simp [connect_gpt, backoff_retry, h0, hq, h1]
  · intro attempts e0 e1 t h0 hq0 h1 hq1 h2
    simp [connect_gpt, backoff_retry, h0, hq0, h1, hq1, h2]
  · intro attempts e0 e1 e2 h0 hq0 h1 hq1 h2 hq2
    simp [connect_gpt, backoff_retry, h0, hq0, h1, hq1, h2, hq2]

/-- C4 witness: the retry policy evaluated on three concrete attempt
sequences — an immediate rate-limit give-up, a timeout retried to success,
and three API errors exhausting the ceiling. -/
theorem c4_witness :
    connect_gpt att_quota = .error GPTError.rate_limit_err ∧
    connect_gpt att_transient = .ok "ok" ∧
    connect_gpt att_exhaust = .error GPTError.api_err :=
  ⟨c4_retry_policy.2.1 att_quota GPTError.rate_limit_err rfl (by decide),
   c4_retry_policy.2.2.1 att_transient GPTError.timeout_err "ok" rfl (by decide) rfl,
   c4_retry_policy.2.2.2.2 att_exhaust GPTError.api_err GPTError.api_err GPTError.api_err
     rfl (by decide) rfl (by decide) rfl (by decide)⟩

/-! ## C6: execution comparison uses set semantics -/

/-- C6: whenever both statements execute without error, `execute_and_compare`
declares a match exactly when the two fetched row lists are equal as finite
sets of rows — unordered and duplicate-insensitive. -/
theorem c6_set_semantics (run_sql : String → Except String (List Row))
    (p g : String) (pr gr : List Row)
    (hp : run_sql p = .ok pr) (hg : run_sql g = .ok gr) :
    (execute_and_compare run_sql p g).same = true ↔ pr.toFinset = gr.toFinset := by
  rw [execute_and_compare, hp, hg]
  by_cases h : py_set_eq pr gr = true
  · simp [h, (py_set_eq_iff pr gr).mp h]
  · have h2 : ¬ pr.toFinset = gr.toFinset := fun hf => h ((py_set_eq_iff pr gr).mpr hf)
    simp [h, h2]

/-- C6 witness: the claim's two example pairs — `[(1,2),(2,1)]` versus
`[(2,1),(1,2)]` and `[(1,1),(1,1)]` versus `[(1,1)]` — both compare as a
match. -/
theorem c6_witness :
    (execute_and_compare run_sql_examples "P1" "G1").same = true ∧
    (execute_and_compare run_sql_examples "P2" "G2").same = true :=
  ⟨(c6_set_semantics run_sql_examples "P1" "G1" [[1, 2], [2, 1]] [[2, 1], [1, 2]]
      rfl rfl).mpr (by decide),
   (c6_set_semantics run_sql_examples "P2" "G2" [[1, 1], [1, 1]] [[1, 1]]
      rfl rfl).mpr (by decide)⟩

/-! ## C9: the comparison closes its connection on every path -/

/-- C9: `execute_and_compare` opens exactly one connection and calls
`conn.close()` exactly once before returning, on all four return paths —
predicted SQL raising, gold SQL raising, and the two no-exception outcomes. -/
theorem c9_connection_closed (run_sql : String → Except String (List Row))
    (predicted_sql gold_sql : String) :
    (execute_and_compare run_sql predicted_sql gold_sql).conn_opened = 1 ∧
    (execute_and_compare run_sql predicted_sql gold_sql).conn_closed = 1 := by
  rw [execute_and_compare]
  cases run_sql predicted_sql with
  | error e => exact ⟨rfl, rfl⟩
  | ok pred_res =>
    cases run_sql gold_sql with
    | error e => exact ⟨rfl, rfl⟩
    | ok gold_res =>
      by_cases h : py_set_eq pred_res gold_res = true <;> simp [h]


/-! ## Lemmas about the interactive loop -/

/-- Once the `message` variable has been assigned, it stays assigned. -/
theorem interactive_go_message_mono (run_sql : String → Except String (List Row))
    (llm : Nat → String → String) (manual : Nat → Option String)
    (schema_prompt question gold_sql : String) :
    ∀ fuel st, st.message.isSome = true →
      (interactive_go run_sql llm manual schema_prompt question gold_sql fuel st).message.isSome
        = true := by
  intro fuel
  induction fuel with
  | zero => intro st h; exact h
  | succ fuel ih =>
    intro st h
    rw [interactive_go]
    split <;> split
    · rfl
    · exact ih _ rfl
    · rfl
    · exact ih _ rfl

/-- After at least one iteration the `message` variable is assigned. -/
theorem interactive_go_message_isSome (run_sql : String → Except String (List Row))
    (llm : Nat → String → String) (manual : Nat → Option String)
    (schema_prompt question gold_sql : String) :
    ∀ fuel st, 0 < fuel →
      (interactive_go run_sql llm manual schema_prompt question gold_sql fuel st).message.isSome
        = true := by
  intro fuel st hfuel
  cases fuel with
  | zero => exact absurd hfuel (by simp)
  | succ fuel =>
    rw [interactive_go]
    split <;> split
    · rfl
    · exact interactive_go_message_mono run_sql llm manual schema_prompt question gold_sql
        fuel _ rfl
    · rfl
    · exact interactive_go_message_mono run_sql llm manual schema_prompt question gold_sql
        fuel _ rfl

/-- A run in which no iteration's comparison succeeds: the loop consumes all
its fuel, never sets the matched flag, and appends one feedback string per
iteration — including the final, bound-reaching one. -/
theorem interactive_go_no_match (run_sql : String → Except String (List Row))
    (llm : Nat → String → String) (manual : Nat → Option String)
    (schema_prompt question gold_sql : String)
    (H : ∀ step prompt, (execute_and_compare run_sql (llm step prompt) gold_sql).same = false) :
    ∀ fuel st,
      (interactive_go run_sql llm manual schema_prompt question gold_sql fuel st).steps
          = st.steps + fuel ∧
      (interactive_go run_sql llm manual schema_prompt question gold_sql fuel st).feedback_history.length
          = st.feedback_history.length + fuel ∧
      (0 < fuel →
        (interactive_go run_sql llm manual schema_prompt question gold_sql fuel st).matched
          = false) := by
  intro fuel
  induction fuel with
  | zero => intro st; exact ⟨rfl, rfl, fun h => absurd h (by simp)⟩
  | succ fuel ih =>
    intro st
    have hsame : (execute_and_compare run_sql
        (llm st.steps (build_interactive_prompt schema_prompt question st.feedback_history
          (if st.steps = 0 then "" else st.pred_sql))) gold_sql).same = false := H _ _
    rw [interactive_go, if_neg (by rw [hsame]; simp)]
    refine ⟨?_, ?_, ?_⟩
    · rw [(ih _).1]; simp; omega
    · rw [(ih _).2.1]; simp; omega
    · intro _
      cases fuel with
      | zero => rfl
      | succ fuel2 => exact (ih _).2.2 (by omega)

/-! ## C2: loop exhaustion when no prediction ever matches -/

/-- C2 counterexample: a one-iteration run (`max_iter = 1`) in which the
comparison fails ends exhausted (`matched = false`, all `1` iterations
performed) with a feedback history of length `1`, not the claimed
`max_iter - 1 = 0`: the loop body collects and appends feedback even on the
final, bound-reaching iteration. -/
theorem c2_counterexample :
    (interactive_loop_state empty_db run_sql_fail llm_fixed manual_none "q" "G" 1).matched
        = false ∧
    (interactive_loop_state empty_db run_sql_fail llm_fixed manual_none "q" "G" 1).steps = 1 ∧
    (interactive_loop_state empty_db run_sql_fail llm_fixed manual_none "q" "G" 1).feedback_history.length
        = 1 ∧
    (interactive_loop_state empty_db run_sql_fail llm_fixed manual_none "q" "G" 1).feedback_history.length
        ≠ 1 - 1 := by
  decide

/-- C2 (amended): if no iteration's predicted SQL matches the gold SQL under
the loop's execution comparison, the loop with bound `max_iter ≥ 1` performs
exactly `max_iter` iterations, terminates in the exhausted state, and returns
a feedback history of length exactly `max_iter` (one feedback string is
collected and appended per failed iteration, including the last one). -/
theorem c2_exhaustion (db : Database) (run_sql : String → Except String (List Row))
    (llm : Nat → String → String) (manual : Nat → Option String)
    (question gold_sql : String) (max_iter : Nat)
    (hmax : 1 ≤ max_iter)
    (H : ∀ step prompt, (execute_and_compare run_sql (llm step prompt) gold_sql).same = false) :
    (interactive_loop_state db run_sql llm manual question gold_sql max_iter).steps = max_iter ∧
    (interactive_loop_state db run_sql llm manual question gold_sql max_iter).matched = false ∧
    (interactive_loop_state db run_sql llm manual question gold_sql max_iter).feedback_history.length
      = max_iter := by
  have h := interactive_go_no_match run_sql llm manual (generate_schema_prompt db 3)
    question gold_sql H max_iter interactive_init
  exact ⟨by simpa [interactive_loop_state, interactive_init] using h.1,
         by simpa [interactive_loop_state] using h.2.2 (by omega),
         by simpa [interactive_loop_state, interactive_init] using h.2.1⟩

/-- C2 witness: the amended exhaustion statement evaluated on a concrete
two-iteration run in which every execution raises (hence never matches). -/
theorem c2_witness :
    (interactive_loop_state empty_db run_sql_fail llm_fixed manual_none "q2" "G" 2).steps = 2 ∧
    (interactive_loop_state empty_db run_sql_fail llm_fixed manual_none "q2" "G" 2).matched
        = false ∧
    (interactive_loop_state empty_db run_sql_fail llm_fixed manual_none "q2" "G" 2).feedback_history.length
        = 2 :=
  c2_exhaustion empty_db run_sql_fail llm_fixed manual_none "q2" "G" 2 (by omega)
    (fun _ _ => rfl)

/-! ## C7: immediate termination on a first-step match -/

/-- C7: if the first predicted SQL and the gold SQL both execute successfully
and produce identical row sets (as unordered collections), the loop with
bound `max_iter ≥ 1` stops after exactly one iteration in the matched state,
with an empty feedback history. -/
theorem c7_first_step_match (db : Database) (run_sql : String → Except String (List Row))
    (llm : Nat → String → String) (manual : Nat → Option String)
    (question gold_sql : String) (max_iter : Nat)
    (hmax : 1 ≤ max_iter)
    (hmatch : ∃ pr gr : List Row,
      run_sql (llm 0 (build_interactive_prompt (generate_schema_prompt db 3) question [] ""))
        = .ok pr ∧
      run_sql gold_sql = .ok gr ∧ pr.toFinset = gr.toFinset) :
    (interactive_loop_state db run_sql llm manual question gold_sql max_iter).steps = 1 ∧
    (interactive_loop_state db run_sql llm manual question gold_sql max_iter).matched = true ∧
    (interactive_loop_state db run_sql llm manual question gold_sql max_iter).feedback_history
      = [] := by
  obtain ⟨pr, gr, hp, hg, hfin⟩ := hmatch
  have hsame : (execute_and_compare run_sql
      (llm 0 (build_interactive_prompt (generate_schema_prompt db 3) question [] ""))
      gold_sql).same = true := by
    rw [execute_and_compare, hp, hg]
    simp [(py_set_eq_iff pr gr).mpr hfin]
  obtain ⟨fuel, rfl⟩ : ∃ fuel, max_iter = fuel + 1 := ⟨max_iter - 1, by omega⟩
  rw [interactive_loop_state, interactive_go]
  simp [interactive_init, hsame]

/-- C7 witness: the first-step-match statement evaluated on a concrete run in
which every statement returns an empty result set. -/
theorem c7_witness :
    (interactive_loop_state empty_db run_sql_ok_empty llm_fixed manual_none "q7" "G" 3).steps
        = 1 ∧
    (interactive_loop_state empty_db run_sql_ok_empty llm_fixed manual_none "q7" "G" 3).matched
        = true ∧
    (interactive_loop_state empty_db run_sql_ok_empty llm_fixed manual_none "q7" "G" 3).feedback_history
        = [] :=
  c7_first_step_match empty_db run_sql_ok_empty llm_fixed manual_none "q7" "G" 3 (by omega)
    ⟨[], [], rfl, rfl, rfl⟩

/-! ## C10: the loop requires an iteration bound of at least one -/

/-- C10: with `max_iter = 0` the loop body never runs and building the result
record raises a `NameError` because the comparison message was never
assigned; with `max_iter ≥ 1` the function returns a result record carrying
the question, the last prediction, the gold SQL, the last comparison message,
and the feedback history. -/
theorem c10_iteration_bound (db : Database) (run_sql : String → Except String (List Row))
    (llm : Nat → String → String) (manual : Nat → Option String)
    (question gold_sql : String) (max_iter : Nat) :
    (max_iter = 0 →
      interactive_loop db run_sql llm manual question gold_sql max_iter
        = .error "NameError: name message is not defined") ∧
    (1 ≤ max_iter → ∃ r : LoopRecord,
      interactive_loop db run_sql llm manual question gold_sql max_iter = .ok r ∧
      r.question = question ∧
      r.gold_sql = gold_sql ∧
      r.pred_sql = (interactive_loop_state db run_sql llm manual question gold_sql max_iter).pred_sql ∧
      some r.execution_result
        = (interactive_loop_state db run_sql llm manual question gold_sql max_iter).message ∧
      r.feedback_history
        = (interactive_loop_state db run_sql llm manual question gold_sql max_iter).feedback_history) := by
  constructor
  · rintro rfl
    rfl
  · intro hmax
    have h := interactive_go_message_isSome run_sql llm manual (generate_schema_prompt db 3)
      question gold_sql max_iter interactive_init (by omega)
    obtain ⟨m, hm⟩ := Option.isSome_iff_exists.mp h
    refine ⟨{ question := question
              pred_sql := (interactive_loop_state db run_sql llm manual question gold_sql max_iter).pred_sql
              gold_sql := gold_sql
              execution_result := m
              feedback_history := (interactive_loop_state db run_sql llm manual question gold_sql max_iter).feedback_history },
           ?_, rfl, rfl, rfl, ?_, rfl⟩
    · simp only [interactive_loop, interactive_loop_state]
      rw [hm]
    · simp only [interactive_loop_state]
      rw [hm]

/-- C10 witness: a zero-bound call errors out, a one-bound call returns a
record, on concrete oracles. -/
theorem c10_witness :
    interactive_loop empty_db run_sql_fail llm_fixed manual_none "q10" "G" 0
      = .error "NameError: name message is not defined" ∧
    (∃ r : LoopRecord,
      interactive_loop empty_db run_sql_fail llm_fixed manual_none "q10" "G" 1 = .ok r ∧
      r.question = "q10" ∧
      r.gold_sql = "G" ∧
      r.pred_sql = (interactive_loop_state empty_db run_sql_fail llm_fixed manual_none "q10" "G" 1).pred_sql ∧
      some r.execution_result
        = (interactive_loop_state empty_db run_sql_fail llm_fixed manual_none "q10" "G" 1).message ∧
      r.feedback_history
        = (interactive_loop_state empty_db run_sql_fail llm_fixed manual_none "q10" "G" 1).feedback_history) :=
  ⟨(c10_iteration_bound empty_db run_sql_fail llm_fixed manual_none "q10" "G" 0).1 rfl,
   (c10_iteration_bound empty_db run_sql_fail llm_fixed manual_none "q10" "G" 1).2 (by omega)⟩

/-! ## C3: first declared foreign-key target per column

`PRAGMA foreign_key_list` reports foreign-key constraints in reverse order of
their declaration in `CREATE TABLE` (SQLite assigns id 0 to the most recently
declared constraint and lists ids in ascending order; e.g. for
`CREATE TABLE t(a, FOREIGN KEY(a) REFERENCES p1(id), FOREIGN KEY(a) REFERENCES p2(id))`
the pragma rows are `(0,0,'p2','a','id',...)` then `(1,0,'p1','a','id',...)`).
`get_foreign_keys` folds the pragma rows into a dict where a later row
overwrites an earlier one for the same originating column, so the surviving
entry is the last pragma row for that column — which, by the pragma's
reversed order, is the first declared constraint.  The theorem quantifies
over the rows `decls` in declaration order and feeds their reversal (the
pragma listing order) to `get_foreign_keys`. -/

/-- C3: for every foreign-key catalog state, reading the pragma listing
(`decls.reverse`) leaves, for each originating column, exactly the target of
the first declared foreign key for that column. -/
theorem c3_first_declared (decls : List (List String)) (col : String) :
    get_foreign_keys decls.reverse col = first_declared_target decls col := by
  induction decls with
  | nil => rfl
  | cons row rest ih =>
    simp only [get_foreign_keys] at ih
    simp only [List.reverse_cons, get_foreign_keys, List.foldl_append, List.foldl_cons,
      List.foldl_nil]
    rw [first_declared_target]
    by_cases h5 : 5 ≤ row.length
    · by_cases hc : col = row.getD 3 ""
      · simp [h5, hc]
      · have hc2 : ¬ (row.getD 3 "" = col) := fun h => hc h.symm
        simp only [if_pos h5, if_neg hc]
        rw [if_neg (by intro h; exact hc2 h.2)]
        exact ih
    · simp only [if_neg h5]
      rw [if_neg (by intro h; exact h5 h.1)]
      exact ih

/-! ## Order and sorting lemmas for the foreign-key summary -/

/-- Lexicographic code-point comparison is transitive. -/
theorem char_list_lt_trans (as : List Char) : ∀ bs cs, char_list_lt as bs = true →
    char_list_lt bs cs = true → char_list_lt as cs = true := by
  induction as with
  | nil =>
    intro bs cs h1 h2
    cases bs with
    | nil => exact absurd h1 (by simp [char_list_lt])
    | cons b bs2 =>
      cases cs with
      | nil => exact absurd h2 (by simp [char_list_lt])
      | cons c cs2 => simp [char_list_lt]
  | cons a as2 ih =>
    intro bs cs h1 h2
    cases bs with
    | nil => exact absurd h1 (by simp [char_list_lt])
    | cons b bs2 =>
      cases cs with
      | nil => exact absurd h2 (by simp [char_list_lt])
      | cons c cs2 =>
        simp only [char_list_lt] at h1 h2 ⊢
        rcases lt_trichotomy a b with hab | hab | hab
        · rcases lt_trichotomy b c with hbc | hbc | hbc
          · simp [lt_trans hab hbc]
          · subst hbc; simp [hab]
          · rw [if_neg (asymm hbc), if_pos hbc] at h2
            exact absurd h2 (by simp)
        · subst hab
          rw [if_neg (lt_irrefl a), if_neg (lt_irrefl a)] at h1
          rcases lt_trichotomy a c with hac | hac | hac
          · simp [hac]
          · subst hac
            rw [if_neg (lt_irrefl a), if_neg (lt_irrefl a)] at h2 ⊢
            exact ih bs2 cs2 h1 h2
          · rw [if_neg (asymm hac), if_pos hac] at h2
            exact absurd h2 (by simp)
        · rw [if_neg (asymm hab), if_pos hab] at h1
          exact absurd h1 (by simp)

/-- Lexicographic code-point comparison is total on distinct lists. -/
theorem char_list_lt_total (as : List Char) : ∀ bs, as ≠ bs →
    char_list_lt as bs = true ∨ char_list_lt bs as = true := by
  induction as with
  | nil =>
    intro bs hne
    cases bs with
    | nil => exact absurd rfl hne
    | cons b bs2 => left; rfl
  | cons a as2 ih =>
    intro bs hne
    cases bs with
    | nil => right; rfl
    | cons b bs2 =>
      rcases lt_trichotomy a b with hab | hab | hab
      · left; simp [char_list_lt, hab]
      · subst hab
        have hne2 : as2 ≠ bs2 := fun h => hne (by rw [h])
        rcases ih bs2 hne2 with h | h
        · left; simp [char_list_lt, lt_irrefl, h]
        · right; simp [char_list_lt, lt_irrefl, h]
      · right; simp [char_list_lt, hab]

/-- Python string comparison is transitive. -/
theorem py_str_lt_trans {a b c : String} (h1 : py_str_lt a b = true)
    (h2 : py_str_lt b c = true) : py_str_lt a c = true :=
  char_list_lt_trans a.toList b.toList c.toList h1 h2

/-- Python string comparison is total on distinct strings. -/
theorem py_str_lt_total {a b : String} (hne : a ≠ b) :
    py_str_lt a b = true ∨ py_str_lt b a = true := by
  exact char_list_lt_total a.toList b.toList (fun h => hne (congrArg String.mk h))

/-- Membership across `insert_uniq`. -/
theorem mem_insert_uniq (s a : String) : ∀ l, a ∈ insert_uniq s l ↔ a = s ∨ a ∈ l := by
  intro l
  induction l with
  | nil => simp [insert_uniq]
  | cons t ts ih =>
    rw [insert_uniq]
    by_cases h1 : s = t
    · subst h1
      rw [if_pos rfl]
      simp only [List.mem_cons]
      tauto
    · rw [if_neg h1]
      by_cases h2 : py_str_lt s t = true
      · rw [if_pos h2]
        simp only [List.mem_cons]
      · rw [if_neg h2]
        simp only [List.mem_cons, ih]
        tauto

/-- Membership across `sorted_set`. -/
theorem mem_sorted_set (a : String) : ∀ xs, a ∈ sorted_set xs ↔ a ∈ xs := by
  intro xs
  induction xs with
  | nil => simp [sorted_set]
  | cons x rest ih =>
    show a ∈ insert_uniq x (sorted_set rest) ↔ _
    rw [mem_insert_uniq]
    simp [ih, List.mem_cons]

/-- `insert_uniq` preserves strict ascending order. -/
theorem pairwise_insert_uniq (s : String) : ∀ l : List String,
    l.Pairwise (fun a b => py_str_lt a b = true) →
    (insert_uniq s l).Pairwise (fun a b => py_str_lt a b = true) := by
  intro l
  induction l with
  | nil => intro _; simp [insert_uniq]
  | cons t ts ih =>
    intro hp
    rcases List.pairwise_cons.mp hp with ⟨ht, hts⟩
    rw [insert_uniq]
    by_cases h1 : s = t
    · rw [if_pos h1]; exact hp
    · rw [if_neg h1]
      by_cases h2 : py_str_lt s t = true
      · rw [if_pos h2]
        refine List.pairwise_cons.mpr ⟨?_, hp⟩
        intro b hb
        rcases List.mem_cons.mp hb with rfl | hb2
        · exact h2
        · exact py_str_lt_trans h2 (ht b hb2)
      · rw [if_neg h2]
        have hts2 : py_str_lt t s = true := by
          rcases py_str_lt_total h1 with h | h
          · exact absurd h h2
          · exact h
        refine List.pairwise_cons.mpr ⟨?_, ih hts⟩
        intro b hb
        rcases (mem_insert_uniq s b ts).mp hb with rfl | hb2
        · exact hts2
        · exact ht b hb2

/-- `sorted_set` is strictly ascending (hence lists each element exactly
once). -/
theorem sorted_set_pairwise : ∀ xs : List String,
    (sorted_set xs).Pairwise (fun a b => py_str_lt a b = true) := by
  intro xs
  induction xs with
  | nil => simp [sorted_set]
  | cons x rest ih => exact pairwise_insert_uniq x (sorted_set rest) ih

/-- Membership across `insert_le`. -/
theorem mem_insert_le (s a : String) : ∀ l, a ∈ insert_le s l ↔ a = s ∨ a ∈ l := by
  intro l
  induction l with
  | nil => simp [insert_le]
  | cons t ts ih =>
    rw [insert_le]
    by_cases h1 : py_str_le s t = true
    · rw [if_pos h1]
      simp only [List.mem_cons]
    · rw [if_neg h1]
      simp only [List.mem_cons, ih]
      tauto

/-- Sorting the table names does not change membership. -/
theorem mem_sort_strings (a : String) : ∀ xs, a ∈ sort_strings xs ↔ a ∈ xs := by
  intro xs
  induction xs with
  | nil => simp [sort_strings]
  | cons x rest ih =>
    show a ∈ insert_le x (sort_strings rest) ↔ _
    rw [mem_insert_le]
    simp [ih, List.mem_cons]

/-! ## Structure lemmas for the schema serializer -/

/-- The foreign-key relations accumulated by the per-table loop are the
concatenation, in sorted-table order, of the relations each table block
appends. -/
theorem schema_accumulate_snd (db : Database) (s : Nat) :
    (schema_accumulate db s).2
      = ((sort_strings db.table_names).map (fun n => (build_table_prompt db s n).2)).flatten := by
  suffices h : ∀ (names : List String) (acc : List String × List String),
      (names.foldl (fun acc table_name =>
        let bp := build_table_prompt db s table_name
        (if bp.1 ≠ "" then acc.1 ++ [bp.1] else acc.1, acc.2 ++ bp.2)) acc).2
        = acc.2 ++ (names.map (fun n => (build_table_prompt db s n).2)).flatten by
    simpa [schema_accumulate] using h (sort_strings db.table_names) ([], [])
  intro names
  induction names with
  | nil => intro acc; simp
  | cons n rest ih =>
    intro acc
    rw [List.foldl_cons, ih]
    simp [List.append_assoc]

/-- The relations a single table block appends: nothing for a table with no
columns, otherwise one relation string per column that has a foreign key, in
column order. -/
theorem build_table_prompt_snd (db : Database) (s : Nat) (n : String) :
    (build_table_prompt db s n).2
      = if db.table_info n = [] then []
        else ((db.table_info n).map
          (column_fk_relation n (get_foreign_keys (db.fk_list n)))).flatten := by
  by_cases h : db.table_info n = []
  · simp [build_table_prompt, h]
  · rw [if_neg h]
    simp only [build_table_prompt, if_neg h, List.map_map]
    congr 1
    have h1 : ((fun c : String × List String => c.2) ∘
        (fun p : Nat × ColumnInfo => column_line db s n (get_foreign_keys (db.fk_list n))
          (db.table_info n).length p.1 p.2))
        = (column_fk_relation n (get_foreign_keys (db.fk_list n))) ∘ Prod.snd := rfl
    rw [h1, ← List.map_map, List.enum_map_snd]

/-- If some pragma row qualifies, the folded foreign-key map is populated at
that row's originating column. -/
theorem fk_fold_isSome (rows : List (List String)) :
    ∀ (m : String → Option (String × String)) (key : String),
      ((m key).isSome = true ∨ ∃ r ∈ rows, 5 ≤ r.length ∧ r.getD 3 "" = key) →
      ((rows.foldl (fun fk_map row =>
        if 5 ≤ row.length then
          fun col =>
            if col = row.getD 3 "" then some (row.getD 2 "", row.getD 4 "") else fk_map col
        else fk_map) m) key).isSome = true := by
  induction rows with
  | nil =>
    intro m key h
    rcases h with h | ⟨r, hr, _⟩
    · exact h
    · simp at hr
  | cons row rest ih =>
    intro m key h
    rw [List.foldl_cons]
    apply ih
    rcases h with hm | ⟨r, hr, h5, hk⟩
    · left
      by_cases h5 : 5 ≤ row.length
      · rw [if_pos h5]
        by_cases hk : key = row.getD 3 ""
        · simp [hk]
        · show (if key = row.getD 3 "" then some (row.getD 2 "", row.getD 4 "")
              else m key).isSome = true
          rw [if_neg hk]
          exact hm
      · rw [if_neg h5]
        exact hm
    · rcases List.mem_cons.mp hr with rfl | hr2
      · left
        rw [if_pos h5]
        simp [hk.symm]
      · right
        exact ⟨r, hr2, h5, hk⟩

/-- A table owning a qualifying foreign-key row whose originating column
exists contributes at least one relation string. -/
theorem build_table_prompt_snd_ne (db : Database) (s : Nat) (n : String)
    (hr : ∃ r ∈ db.fk_list n, 5 ≤ r.length ∧
      r.getD 3 "" ∈ (db.table_info n).map ColumnInfo.name) :
    (build_table_prompt db s n).2 ≠ [] := by
  obtain ⟨r, hrl, h5, hcol⟩ := hr
  obtain ⟨col, hcolmem, hname⟩ : ∃ col ∈ db.table_info n, col.name = r.getD 3 "" := by
    simpa [List.mem_map] using hcol
  have hsome : (get_foreign_keys (db.fk_list n) col.name).isSome = true := by
    rw [hname]
    exact fk_fold_isSome (db.fk_list n) (fun _ => none) (r.getD 3 "")
      (Or.inr ⟨r, hrl, h5, rfl⟩)
  have hne : db.table_info n ≠ [] := by
    intro h
    rw [h] at hcolmem
    simp at hcolmem
  rw [build_table_prompt_snd, if_neg hne]
  obtain ⟨tgt, htgt⟩ := Option.isSome_iff_exists.mp hsome
  have hrel : column_fk_relation n (get_foreign_keys (db.fk_list n)) col ≠ [] := by
    rw [column_fk_relation, htgt]
    simp
  have hmem : column_fk_relation n (get_foreign_keys (db.fk_list n)) col
      ∈ (db.table_info n).map (column_fk_relation n (get_foreign_keys (db.fk_list n))) :=
    List.mem_map_of_mem _ hcolmem
  intro hflat
  exact hrel (List.flatten_eq_nil_iff.mp hflat _ hmem)

/-- A schema containing a qualifying foreign key accumulates at least one
relation string. -/
theorem schema_fk_nonempty (db : Database) (s : Nat)
    (h : ∃ n ∈ db.table_names, ∃ r ∈ db.fk_list n, 5 ≤ r.length ∧
      r.getD 3 "" ∈ (db.table_info n).map ColumnInfo.name) :
    (schema_accumulate db s).2 ≠ [] := by
  obtain ⟨n, hn, hr⟩ := h
  have hb := build_table_prompt_snd_ne db s n hr
  rw [schema_accumulate_snd]
  have hnmem : n ∈ sort_strings db.table_names := (mem_sort_strings n _).mpr hn
  have hmem : (build_table_prompt db s n).2
      ∈ (sort_strings db.table_names).map (fun n2 => (build_table_prompt db s n2).2) :=
    List.mem_map_of_mem _ hnmem
  intro hflat
  exact hb (List.flatten_eq_nil_iff.mp hflat _ hmem)

/-- A schema with no foreign keys accumulates no relation strings. -/
theorem schema_fk_empty (db : Database) (s : Nat)
    (h : ∀ n ∈ db.table_names, db.fk_list n = []) :
    (schema_accumulate db s).2 = [] := by
  rw [schema_accumulate_snd, List.flatten_eq_nil_iff]
  intro x hx
  rcases List.mem_map.mp hx with ⟨n, hn, rfl⟩
  have hn2 : n ∈ db.table_names := (mem_sort_strings n _).mp hn
  rw [build_table_prompt_snd]
  by_cases hti : db.table_info n = []
  · rw [if_pos hti]
  · rw [if_neg hti, List.flatten_eq_nil_iff]
    intro y hy
    rcases List.mem_map.mp hy with ⟨col, _, rfl⟩
    rw [column_fk_relation, h n hn2]
    rfl

/-! ## C8: the foreign-key summary section -/

/-- C8: (a) whenever the schema contains at least one foreign key — some user
table's pragma listing holds a qualifying row whose originating column exists
in that table — the serialized schema is the table blocks followed by exactly
one final `【Foreign keys】` section whose listed relation strings are
precisely the distinct accumulated `table.column = ref_table.ref_column`
strings (each appearing exactly once, since the listing is strictly
ascending), in sorted order, even when the same relation was accumulated by
multiple declarations; (b) when no table declares any foreign key, no such
section is emitted; (c) a database with no tables serializes to the empty
string. -/
theorem c8_fk_summary (db : Database) (s : Nat) :
    ((∃ n ∈ db.table_names, ∃ r ∈ db.fk_list n, 5 ≤ r.length ∧
        r.getD 3 "" ∈ (db.table_info n).map ColumnInfo.name) →
      (schema_accumulate db s).2 ≠ [] ∧
      generate_schema_prompt db s
        = py_join "\n\n" ((schema_accumulate db s).1
            ++ ["【Foreign keys】\n" ++ py_join "\n" (sorted_set (schema_accumulate db s).2)]) ∧
      (∀ rel, rel ∈ sorted_set (schema_accumulate db s).2
        ↔ rel ∈ (schema_accumulate db s).2) ∧
      (sorted_set (schema_accumulate db s).2).Pairwise (fun a b => py_str_lt a b = true)) ∧
    ((∀ n ∈ db.table_names, db.fk_list n = []) →
      generate_schema_prompt db s = py_join "\n\n" (schema_accumulate db s).1) ∧
    (db.table_names = [] → generate_schema_prompt db s = "") := by
  refine ⟨?_, ?_, ?_⟩
  · intro h
    have hne := schema_fk_nonempty db s h
    refine ⟨hne, ?_, fun rel => mem_sorted_set rel _, sorted_set_pairwise _⟩
    simp only [generate_schema_prompt]
    rw [if_pos hne]
  · intro h
    have he := schema_fk_empty db s h
    simp only [generate_schema_prompt]
    rw [if_neg (by rw [he]; simp)]
  · intro h
    have hacc : schema_accumulate db s = ([], []) := by
      rw [schema_accumulate, h]
      rfl
    simp only [generate_schema_prompt, hacc]
    rfl

/-- C8 witness: evaluated on a one-table database with a foreign key (the
summary section appears with the deduplicated sorted relations) and on the
empty database (empty output). -/
theorem c8_witness :
    ((schema_accumulate fk_db 3).2 ≠ [] ∧
      generate_schema_prompt fk_db 3
        = py_join "\n\n" ((schema_accumulate fk_db 3).1
            ++ ["【Foreign keys】\n" ++ py_join "\n" (sorted_set (schema_accumulate fk_db 3).2)]) ∧
      (∀ rel, rel ∈ sorted_set (schema_accumulate fk_db 3).2
        ↔ rel ∈ (schema_accumulate fk_db 3).2) ∧
      (sorted_set (schema_accumulate fk_db 3).2).Pairwise (fun a b => py_str_lt a b = true)) ∧
    generate_schema_prompt empty_db 3 = "" := by
  refine ⟨(c8_fk_summary fk_db 3).1 ?_, (c8_fk_summary empty_db 3).2.2 rfl⟩
  exact ⟨"t", by decide, ["0", "0", "p", "a", "id", "NO ACTION", "NO ACTION", "NONE"],
    by decide, by decide, by decide⟩
